import Mathlib

/-!
# Shallow embedding of the `stars` starboard bot (src/main.rs)

The program watches Discord reaction events and promotes a message to a
starboard channel once its weighted star count reaches the threshold 10.
This file embeds the state and the event handlers of `src/main.rs`:

* `WatchedMessage`, `ReactionKind`, `is_valid_reaction` mirror the structs
  and pure helpers;
* `reaction_add`, `reaction_remove`, `ready` mirror the three
  `EventHandler` methods. All platform interactions (channel lookup,
  permission lookup, message fetch, sending) and every `RwLock`
  acquisition outcome are passed in explicitly through an environment
  record, since the Rust code branches on each `if let Ok(..)`.

`star_count` is a Rust `usize`; it is modelled as a `Nat` together with
an explicit reduction modulo `2 ^ 64`, matching the wrapping semantics of
release-mode overflow (`-=` below zero wraps; in debug builds it panics —
either way the value never becomes negative).
-/

namespace Stars

/-- Width of `usize` values: `2 ^ 64`. -/
def USIZE : Nat := 18446744073709551616

/-- The snapshot of a Discord message that the bot keeps: its id, the
channel it lives in and its author, mirroring the fields of
`serenity::Message` that the handler logic reads. -/
structure Message where
  id : Nat
  channel_id : Nat
  author_id : Nat
  deriving DecidableEq, Repr

/-- `struct WatchedMessage { star_count: usize, message: Message }`. -/
structure WatchedMessage where
  star_count : Nat
  message : Message
  deriving DecidableEq, Repr

/-- `enum ReactionKind { AdminStar, UserStar }`. -/
inductive ReactionKind where
  | AdminStar
  | UserStar
  deriving DecidableEq, Repr

/-- `ReactionKind::power`: AdminStar weighs 10, UserStar weighs 1. -/
def ReactionKind.power : ReactionKind → Nat
  | .AdminStar => 10
  | .UserStar => 1

/-- `WatchedMessage::on_star_added`: `self.star_count += kind.power()`
(usize addition, wrapping modulo `2 ^ 64`). -/
def WatchedMessage.on_star_added (wm : WatchedMessage) (kind : ReactionKind) :
    WatchedMessage :=
  { wm with star_count := (wm.star_count + kind.power) % USIZE }

/-- `WatchedMessage::on_star_removed`: `self.star_count -= kind.power()`
(usize subtraction; release-mode overflow wraps modulo `2 ^ 64`). -/
def WatchedMessage.on_star_removed (wm : WatchedMessage) (kind : ReactionKind) :
    WatchedMessage :=
  { wm with star_count := (wm.star_count + (USIZE - kind.power)) % USIZE }

/-- `WatchedMessage::is_ready_for_pinning`: `self.star_count >= 10`. -/
def WatchedMessage.is_ready_for_pinning (wm : WatchedMessage) : Bool :=
  10 ≤ wm.star_count

/-- `WatchedMessage::new`: the entry seeds `star_count` at 10 for an
`AdminStar` and at 0 for a `UserStar`; the message snapshot comes from a
platform fetch which can fail (`Result` in the source, `Option` here, the
argument being the fetch's outcome). -/
def WatchedMessage.new (kind : ReactionKind) (fetched : Option Message) :
    Option WatchedMessage :=
  fetched.map fun m =>
    { star_count := match kind with
        | .AdminStar => 10
        | .UserStar => 0
      message := m }

/-- The emoji of a reaction (`serenity::ReactionType`): a custom emoji
with a numeric id, or anything else (unicode). -/
inductive ReactionType where
  | Custom (id : Nat) (animated : Bool) (name : Option String)
  | Unicode (s : String)
  deriving DecidableEq, Repr

/-- The fields of `serenity::Reaction` that the handlers read. -/
structure Reaction where
  emoji : ReactionType
  message_id : Nat
  channel_id : Nat
  user_id : Nat
  deriving DecidableEq, Repr

/-- The configured emoji and channel ids held by `Handler`. -/
structure HandlerConfig where
  admin_star_id : Nat
  star_id : Nat
  starboard_channel : Nat
  deriving DecidableEq, Repr

/-- `Handler::is_valid_reaction`: a custom emoji equal to the configured
admin star classifies as `AdminStar`, equal to the configured user star
as `UserStar`; everything else is ignored. -/
def is_valid_reaction (cfg : HandlerConfig) (r : Reaction) :
    Option ReactionKind :=
  match r.emoji with
  | .Custom id _ _ =>
    if id = cfg.admin_star_id then some .AdminStar
    else if id = cfg.star_id then some .UserStar
    else none
  | .Unicode _ => none

/-- Association-list lookup mirroring `HashMap::get` on
`watched_messages` (keys are unique by construction). -/
def lookupMsg : List (Nat × WatchedMessage) → Nat → Option WatchedMessage
  | [], _ => none
  | (k, v) :: rest, key => if k = key then some v else lookupMsg rest key

/-- In-place update of the entry at a key, mirroring the mutation through
`HashMap::get_mut`. -/
def modifyMsg : List (Nat × WatchedMessage) → Nat →
    (WatchedMessage → WatchedMessage) → List (Nat × WatchedMessage)
  | [], _, _ => []
  | (k, v) :: rest, key, f =>
    if k = key then (k, f v) :: rest else (k, v) :: modifyMsg rest key f

/-- `HashMap::insert`: replaces the entry at the key if present,
otherwise appends a new one. -/
def insertMsg : List (Nat × WatchedMessage) → Nat → WatchedMessage →
    List (Nat × WatchedMessage)
  | [], key, v => [(key, v)]
  | (k, v') :: rest, key, v =>
    if k = key then (key, v) :: rest else (k, v') :: insertMsg rest key v

/-- `HashMap::remove`: drops the entry at the key. -/
def removeMsg : List (Nat × WatchedMessage) → Nat → List (Nat × WatchedMessage)
  | [], _ => []
  | (k, v) :: rest, key =>
    if k = key then rest else (k, v) :: removeMsg rest key

/-- The mutable state of `Handler`: the watched-message map and the
`starred_message_ids` vector (the posted-message set). -/
structure HandlerState where
  watched_messages : List (Nat × WatchedMessage)
  starred_message_ids : List Nat
  deriving DecidableEq, Repr

/-- `Handler::new` starts with an empty map and an empty posted set. -/
def HandlerState.initial : HandlerState :=
  { watched_messages := [], starred_message_ids := [] }

/-- Environment of one `reaction_add` invocation: outcomes of the
platform calls and of each lock acquisition, in the order the handler
performs them. `channel = some g` means the channel resolved to a guild
channel of guild `g`; `none` covers both a lookup error and a non-guild
channel. `perms = some b` means the permission lookup succeeded and `b`
tells whether the user is an administrator; `none` means the lookup
failed (the code fails open). `fetched` is the outcome of
`reaction.message(..)` inside `WatchedMessage::new`. -/
structure AddEnv where
  channel : Option Nat
  perms : Option Bool
  fetched : Option Message
  starredReadOk : Bool
  watchedWriteOk : Bool
  watchedReadOk : Bool
  watchedWrite2Ok : Bool
  starredWriteOk : Bool
  postOk : Bool
  deriving DecidableEq, Repr

/-- Observable side effects of one `reaction_add` invocation. -/
structure AddEffects where
  permissionChecked : Bool
  postAttempted : Bool
  posted : Bool
  errorReportedTo : Option Nat
  deriving DecidableEq, Repr

/-- The effects of an invocation that touched nothing external. -/
def AddEffects.none : AddEffects :=
  { permissionChecked := false, postAttempted := false, posted := false,
    errorReportedTo := Option.none }

/-- `EventHandler::reaction_add` for `Handler`, step by step as in the
source: classify the emoji; resolve the channel (return unless it is a
guild channel); for an `AdminStar` look up the reactor's permissions and
drop the event if the lookup succeeds and denies administrator (fail-open
on lookup failure); skip everything if the posted-set read lock is held
and contains the message; under the store write lock bump an existing
entry or create a fresh one; under the store read lock re-check
eligibility and, if eligible, post to the starboard — on success remove
the entry (keyed by the snapshot's own id) and mark it posted, on failure
send a plain-text report to the originating channel. Every `if let
Ok(lock)` that fails simply skips its block. -/
def reaction_add (cfg : HandlerConfig) (st : HandlerState) (r : Reaction)
    (env : AddEnv) : HandlerState × AddEffects :=
  match is_valid_reaction cfg r with
  | Option.none => (st, AddEffects.none)
  | some kind =>
    match env.channel with
    | Option.none => (st, AddEffects.none)
    | some _guild_id =>
      let permChecked : Bool := kind = .AdminStar
      if kind = .AdminStar ∧ env.perms = some false then
        (st, { AddEffects.none with permissionChecked := true })
      else if env.starredReadOk ∧ r.message_id ∈ st.starred_message_ids then
        (st, { AddEffects.none with permissionChecked := permChecked })
      else
        let st1 :=
          if env.watchedWriteOk then
            match lookupMsg st.watched_messages r.message_id with
            | some _ =>
              let wmap :=
                modifyMsg st.watched_messages r.message_id
                  (fun wm => wm.on_star_added kind)
              { st with watched_messages := wmap }
            | Option.none =>
              match WatchedMessage.new kind env.fetched with
              | some wm =>
                { st with watched_messages :=
                    insertMsg st.watched_messages r.message_id wm }
              | Option.none => st
          else st
        let eligible : Option WatchedMessage :=
          if env.watchedReadOk then
            match lookupMsg st1.watched_messages r.message_id with
            | some wm => if wm.is_ready_for_pinning then some wm else Option.none
            | Option.none => Option.none
          else Option.none
        match eligible with
        | Option.none =>
          (st1, { AddEffects.none with permissionChecked := permChecked })
        | some wm =>
          if env.postOk then
            if env.watchedWrite2Ok then
              let wmap := removeMsg st1.watched_messages wm.message.id
              let st2 := { st1 with watched_messages := wmap }
              if env.starredWriteOk then
                let ids := st2.starred_message_ids ++ [wm.message.id]
                ({ st2 with starred_message_ids := ids },
                 { permissionChecked := permChecked, postAttempted := true,
                   posted := true, errorReportedTo := Option.none })
              else
                (st2, { permissionChecked := permChecked, postAttempted := true,
                        posted := true, errorReportedTo := Option.none })
            else
              (st1, { permissionChecked := permChecked, postAttempted := true,
                      posted := true, errorReportedTo := Option.none })
          else
            (st1, { permissionChecked := permChecked, postAttempted := true,
                    posted := false, errorReportedTo := some r.channel_id })

/-- Environment of one `reaction_remove` invocation: the two lock
acquisition outcomes. -/
structure RemoveEnv where
  starredReadOk : Bool
  watchedWriteOk : Bool
  deriving DecidableEq, Repr

/-- `EventHandler::reaction_remove`: classify the emoji; skip if the
posted-set read lock is held and contains the message; under the store
write lock decrement an existing entry (absent entries are left alone —
no entry is ever created here). -/
def reaction_remove (cfg : HandlerConfig) (st : HandlerState) (r : Reaction)
    (env : RemoveEnv) : HandlerState :=
  match is_valid_reaction cfg r with
  | Option.none => st
  | some kind =>
    if env.starredReadOk ∧ r.message_id ∈ st.starred_message_ids then st
    else if env.watchedWriteOk then
      match lookupMsg st.watched_messages r.message_id with
      | some _ =>
        let wmap :=
          modifyMsg st.watched_messages r.message_id
            (fun wm => wm.on_star_removed kind)
        { st with watched_messages := wmap }
      | Option.none => st
    else st

/-- `EventHandler::ready`: if both the posted-set write lock and the
starboard history fetch succeed, push the id of every history message
authored by the bot; on either failure the set is left untouched. The
handler returns normally in every case (no error result exists). -/
def ready (st : HandlerState) (botUserId : Nat) (lockOk : Bool)
    (history : Option (List Message)) : HandlerState :=
  match lockOk, history with
  | true, some msgs =>
    { st with starred_message_ids :=
        st.starred_message_ids ++
          (msgs.filter (fun m => m.author_id == botUserId)).map (fun m => m.id) }
  | _, _ => st

/-- A platform environment in which everything succeeds except possibly
the starboard post itself: the channel resolves to guild `g`, the
permission lookup confirms an administrator, the message fetch returns
`msg`, and every lock acquisition succeeds. -/
def happyEnv (g : Nat) (msg : Message) (postOk : Bool) : AddEnv :=
  { channel := some g, perms := some true, fetched := some msg,
    starredReadOk := true, watchedWriteOk := true, watchedReadOk := true,
    watchedWrite2Ok := true, starredWriteOk := true, postOk := postOk }

/-- `n` successive deliveries of the same `ReactionAdded` event. -/
def addN (cfg : HandlerConfig) (r : Reaction) (env : AddEnv) :
    Nat → HandlerState → HandlerState
  | 0, st => st
  | n + 1, st => (reaction_add cfg (addN cfg r env n st) r env).1

/-- `n` successive star removals applied to one watched entry. -/
def removeN (kind : ReactionKind) : Nat → WatchedMessage → WatchedMessage
  | 0, wm => wm
  | n + 1, wm => (removeN kind n wm).on_star_removed kind

/-- A concrete configuration: admin-star emoji 1, user-star emoji 2,
starboard channel 3. -/
def cfgEx : HandlerConfig := ⟨1, 2, 3⟩

/-- A concrete message: id 100 in channel 7 by author 9. -/
def msgEx : Message := ⟨100, 7, 9⟩

/-- A user-star reaction on message 100 in channel 7 by user 5. -/
def userStarReaction : Reaction := ⟨.Custom 2 false Option.none, 100, 7, 5⟩

/-- An admin-star reaction on message 100 in channel 7 by user 5. -/
def adminStarReaction : Reaction := ⟨.Custom 1 false Option.none, 100, 7, 5⟩

/-- An environment whose channel lookup does not yield a guild channel. -/
def noGuildEnv : AddEnv :=
  { channel := Option.none, perms := Option.none, fetched := Option.none,
    starredReadOk := true, watchedWriteOk := true, watchedReadOk := true,
    watchedWrite2Ok := true, starredWriteOk := true, postOk := true }

/-- An environment in which every lock acquisition fails. -/
def allLocksFailEnv (g : Nat) (msg : Message) : AddEnv :=
  { channel := some g, perms := some true, fetched := some msg,
    starredReadOk := false, watchedWriteOk := false, watchedReadOk := false,
    watchedWrite2Ok := false, starredWriteOk := false, postOk := true }

/- ------------------------------------------------------------------ -/
/- Helper lemmas about the association-list operations.               -/
/- ------------------------------------------------------------------ -/

theorem lookupMsg_insertMsg (m : List (Nat × WatchedMessage)) (k : Nat)
    (v : WatchedMessage) : lookupMsg (insertMsg m k v) k = some v := by
  induction m with
  | nil => simp [insertMsg, lookupMsg]
  | cons hd tl ih =>
    obtain ⟨k', v'⟩ := hd
    by_cases h : k' = k
    · simp [insertMsg, lookupMsg, h]
    · simp [insertMsg, lookupMsg, h, ih]

theorem lookupMsg_modifyMsg (m : List (Nat × WatchedMessage)) (k : Nat)
    (f : WatchedMessage → WatchedMessage) :
    lookupMsg (modifyMsg m k f) k = (lookupMsg m k).map f := by
  induction m with
  | nil => simp [modifyMsg, lookupMsg]
  | cons hd tl ih =>
    obtain ⟨k', v'⟩ := hd
    by_cases h : k' = k
    · simp [modifyMsg, lookupMsg, h]
    · simp [modifyMsg, lookupMsg, h, ih]

/- ------------------------------------------------------------------ -/
/- Claims.                                                            -/
/- ------------------------------------------------------------------ -/

/-- C7: a `ReactionRemoved` event for a message that is neither tracked
in the watched-message store nor in the posted set leaves the handler
state exactly as it was — no entry is created and nothing is mutated
(this holds for every lock-availability environment). -/
theorem C7_remove_untracked_noop (cfg : HandlerConfig) (st : HandlerState)
    (r : Reaction) (env : RemoveEnv)
    (hw : lookupMsg st.watched_messages r.message_id = Option.none)
    (hs : r.message_id ∉ st.starred_message_ids) :
    reaction_remove cfg st r env = st := by
  unfold reaction_remove
  cases hv : is_valid_reaction cfg r with
  | none => rfl
  | some kind =>
    simp only [hs, and_false, if_false, hw]
    split
    · rfl
    · rfl

/-- C7 witness: removing a user star from the empty initial state is a
no-op. -/
theorem C7_witness :
    reaction_remove cfgEx HandlerState.initial userStarReaction ⟨true, true⟩ =
      HandlerState.initial :=
  C7_remove_untracked_noop cfgEx HandlerState.initial userStarReaction
    ⟨true, true⟩ rfl (by simp [HandlerState.initial])

/-- C9: when the channel of a `ReactionAdded` event does not resolve to a
guild channel (lookup error or non-guild channel), the handler returns
right after classification: the state is unchanged and no permission
lookup, no post attempt and no error report happen. -/
theorem C9_non_guild_noop (cfg : HandlerConfig) (st : HandlerState)
    (r : Reaction) (env : AddEnv) (h : env.channel = Option.none) :
    reaction_add cfg st r env = (st, AddEffects.none) := by
  unfold reaction_add
  cases hv : is_valid_reaction cfg r with
  | none => rfl
  | some kind => simp only [h]

/-- C9 witness: a user-star add whose channel lookup fails leaves the
initial state untouched with no effects. -/
theorem C9_witness :
    reaction_add cfgEx HandlerState.initial userStarReaction noGuildEnv =
      (HandlerState.initial, AddEffects.none) :=
  C9_non_guild_noop cfgEx HandlerState.initial userStarReaction noGuildEnv rfl

/-- C10: if during `ready` the posted-set write lock is unavailable or
the starboard history fetch fails, the handler leaves the state exactly
as it was — in particular the posted set stays empty when starting from
`Handler::new`'s initial state — and returns normally (the model is a
total function into `HandlerState`; no error escapes). -/
theorem C10_ready_failure_noop (st : HandlerState) (bot : Nat)
    (lockOk : Bool) (hist : Option (List Message))
    (h : lockOk = false ∨ hist = Option.none) :
    ready st bot lockOk hist = st ∧
      (ready HandlerState.initial bot lockOk hist).starred_message_ids = [] := by
  rcases h with h | h
  · subst h
    cases hist <;> exact ⟨rfl, rfl⟩
  · subst h
    cases lockOk <;> exact ⟨rfl, rfl⟩

/-- C10 witness: a failed history fetch during `ready` keeps the initial
state and an empty posted set. -/
theorem C10_witness :
    ready HandlerState.initial 9 true Option.none = HandlerState.initial ∧
      (ready HandlerState.initial 9 true Option.none).starred_message_ids = [] :=
  C10_ready_failure_noop HandlerState.initial 9 true Option.none (Or.inr rfl)

/-- Wrapping subtraction stays ordinary subtraction while the count
covers the removed weight. -/
theorem on_star_removed_of_le (wm : WatchedMessage) (k : ReactionKind)
    (h1 : k.power ≤ wm.star_count) (h2 : wm.star_count < USIZE) :
    wm.on_star_removed k = ⟨wm.star_count - k.power, wm.message⟩ := by
  have hp : k.power ≤ USIZE := by
    cases k <;> simp [ReactionKind.power, USIZE]
  unfold WatchedMessage.on_star_removed
  have he : wm.star_count + (USIZE - k.power) =
      (wm.star_count - k.power) + USIZE := by omega
  rw [he, Nat.add_mod_right, Nat.mod_eq_of_lt (by omega)]

/-- Removing `n ≤ 10` user stars from an admin-seeded entry (count 10)
leaves count `10 - n`. -/
theorem removeN_user_from_ten (msg : Message) (n : Nat) (hn : n ≤ 10) :
    removeN .UserStar n ⟨10, msg⟩ = ⟨10 - n, msg⟩ := by
  induction n with
  | zero => rfl
  | succ m ih =>
    rw [removeN, ih (Nat.le_of_succ_le hn)]
    rw [on_star_removed_of_le ⟨10 - m, msg⟩ .UserStar
      (by simp [ReactionKind.power]; omega)
      (by simp only [USIZE]; omega)]
    have hc : 10 - m - ReactionKind.power .UserStar = 10 - (m + 1) := by
      simp only [ReactionKind.power]
      omega
    rw [hc]

/-- C4 counterexample: on an admin-seeded entry (`star_count = 10`),
eleven user-star removals — one more than the seeded weight — do NOT
drive `star_count` below zero: `star_count` is a `usize`, so the
eleventh subtraction wraps to `2 ^ 64 - 1` (release semantics; a debug
build would panic), a huge non-negative value that still passes the
eligibility check. -/
theorem C4_counterexample :
    (removeN .UserStar 11 ⟨10, msgEx⟩).star_count = USIZE - 1 ∧
      (removeN .UserStar 11 ⟨10, msgEx⟩).is_ready_for_pinning = true := by
  constructor
  · decide
  · decide

/-- C4 (amended): removals whose total weight exceeds the added weight do
not make `star_count` negative — the counter is an unsigned machine
integer. While the removed weight stays within the seeded 10 the count
decreases normally; the removal that would cross zero wraps modulo
`2 ^ 64` to `2 ^ 64 - 1`, which still satisfies the `star_count >= 10`
eligibility check. There is no floor at zero, and no negative value
either. -/
theorem C4_wrapping_no_floor (msg : Message) (n : Nat) (hn : n ≤ 10) :
    (removeN .UserStar n ⟨10, msg⟩).star_count = 10 - n ∧
      (removeN .UserStar 11 ⟨10, msg⟩).star_count = USIZE - 1 ∧
      (removeN .UserStar 11 ⟨10, msg⟩).is_ready_for_pinning = true := by
  refine ⟨by rw [removeN_user_from_ten msg n hn], ?_, ?_⟩
  · show ((removeN .UserStar 10 ⟨10, msg⟩).on_star_removed .UserStar).star_count =
      USIZE - 1
    rw [removeN_user_from_ten msg 10 (by omega)]
    simp [WatchedMessage.on_star_removed, ReactionKind.power, USIZE]
  · show ((removeN .UserStar 10 ⟨10, msg⟩).on_star_removed .UserStar).is_ready_for_pinning =
      true
    rw [removeN_user_from_ten msg 10 (by omega)]
    simp [WatchedMessage.on_star_removed, WatchedMessage.is_ready_for_pinning,
      ReactionKind.power, USIZE]

/-- C4 witness: three removals from the admin seed leave count 7; the
eleventh wraps to `2 ^ 64 - 1` and keeps the entry eligible. -/
theorem C4_witness :
    (removeN .UserStar 3 ⟨10, msgEx⟩).star_count = 10 - 3 ∧
      (removeN .UserStar 11 ⟨10, msgEx⟩).star_count = USIZE - 1 ∧
      (removeN .UserStar 11 ⟨10, msgEx⟩).is_ready_for_pinning = true :=
  C4_wrapping_no_floor msgEx 3 (by omega)

/-- C2 counterexample: identity 100 is in the posted set, yet a
`ReactionAdded` delivered while the posted-set read lock is unavailable
skips the dedup guard and re-creates a watched entry for it — the state
is mutated and the identity re-enters the store. -/
theorem C2_counterexample :
    (reaction_add cfgEx ⟨[], [100]⟩ userStarReaction
        { happyEnv 50 msgEx true with starredReadOk := false }).1 ≠
      (⟨[], [100]⟩ : HandlerState) ∧
      lookupMsg (reaction_add cfgEx ⟨[], [100]⟩ userStarReaction
          { happyEnv 50 msgEx true with starredReadOk := false
          }).1.watched_messages 100 = some ⟨0, msgEx⟩ := by
  constructor
  · decide
  · decide

/-- C2 (amended): provided the posted-set read lock is acquired, every
`ReactionAdded` or `ReactionRemoved` for an identity already in the
posted set leaves the handler state unchanged and attempts no starboard
post; when that lock acquisition fails the guard is skipped and the
identity can re-enter the watched-message store. -/
theorem C2_posted_identity_frozen (cfg : HandlerConfig) (st : HandlerState)
    (r : Reaction) (envA : AddEnv) (envR : RemoveEnv)
    (hmem : r.message_id ∈ st.starred_message_ids)
    (hA : envA.starredReadOk = true) (hR : envR.starredReadOk = true) :
    (reaction_add cfg st r envA).1 = st ∧
      (reaction_add cfg st r envA).2.postAttempted = false ∧
      (reaction_add cfg st r envA).2.posted = false ∧
      reaction_remove cfg st r envR = st := by
  have hadd : (reaction_add cfg st r envA).1 = st ∧
      (reaction_add cfg st r envA).2.postAttempted = false ∧
      (reaction_add cfg st r envA).2.posted = false := by
    unfold reaction_add
    cases hv : is_valid_reaction cfg r with
    | none => exact ⟨rfl, rfl, rfl⟩
    | some kind =>
      cases hch : envA.channel with
      | none => exact ⟨rfl, rfl, rfl⟩
      | some g =>
        by_cases hperm : kind = .AdminStar ∧ envA.perms = some false
        · simp [hperm, AddEffects.none]
        · simp [hperm, hA, hmem, AddEffects.none]
  have hrem : reaction_remove cfg st r envR = st := by
    unfold reaction_remove
    cases hv : is_valid_reaction cfg r with
    | none => rfl
    | some kind => simp [hR, hmem]
  exact ⟨hadd.1, hadd.2.1, hadd.2.2, hrem⟩

/-- C2 witness: an add and a remove on posted identity 100 with the
posted-set read lock held leave the state `⟨[], [100]⟩` untouched. -/
theorem C2_witness :
    (reaction_add cfgEx ⟨[], [100]⟩ userStarReaction (happyEnv 50 msgEx true)).1 =
        (⟨[], [100]⟩ : HandlerState) ∧
      (reaction_add cfgEx ⟨[], [100]⟩ userStarReaction
          (happyEnv 50 msgEx true)).2.postAttempted = false ∧
      (reaction_add cfgEx ⟨[], [100]⟩ userStarReaction
          (happyEnv 50 msgEx true)).2.posted = false ∧
      reaction_remove cfgEx ⟨[], [100]⟩ userStarReaction ⟨true, true⟩ =
        (⟨[], [100]⟩ : HandlerState) :=
  C2_posted_identity_frozen cfgEx ⟨[], [100]⟩ userStarReaction
    (happyEnv 50 msgEx true) ⟨true, true⟩ (by decide) rfl rfl

/-- C5 counterexample: handling a user-star add on an entry with count 9
while the posted-set WRITE lock is unavailable is anything but a
no-op: the count is bumped to 10, the starboard post happens, and the
entry is removed from the store (only the marking as posted is skipped).
A lock being unavailable does not drop the event. -/
theorem C5_counterexample :
    (reaction_add cfgEx ⟨[(100, ⟨9, msgEx⟩)], []⟩ userStarReaction
        { happyEnv 50 msgEx true with starredWriteOk := false }).2.posted = true ∧
      (reaction_add cfgEx ⟨[(100, ⟨9, msgEx⟩)], []⟩ userStarReaction
          { happyEnv 50 msgEx true with starredWriteOk := false }).1 ≠
        (⟨[(100, ⟨9, msgEx⟩)], []⟩ : HandlerState) := by
  constructor
  · decide
  · decide

/-- C5 (amended): an unavailable lock skips exactly the section it
guards rather than dropping the whole event; only when every lock
acquisition of the event fails does the handler read and mutate nothing
and attempt no post — and in no case is the event retried. -/
theorem C5_locks_skip_guarded_sections (cfg : HandlerConfig)
    (st : HandlerState) (r : Reaction) (envA : AddEnv) (envR : RemoveEnv)
    (h1 : envA.starredReadOk = false) (h2 : envA.watchedWriteOk = false)
    (h3 : envA.watchedReadOk = false)
    (h4 : envR.starredReadOk = false) (h5 : envR.watchedWriteOk = false) :
    (reaction_add cfg st r envA).1 = st ∧
      (reaction_add cfg st r envA).2.postAttempted = false ∧
      (reaction_add cfg st r envA).2.posted = false ∧
      reaction_remove cfg st r envR = st := by
  have hadd : (reaction_add cfg st r envA).1 = st ∧
      (reaction_add cfg st r envA).2.postAttempted = false ∧
      (reaction_add cfg st r envA).2.posted = false := by
    unfold reaction_add
    cases hv : is_valid_reaction cfg r with
    | none => exact ⟨rfl, rfl, rfl⟩
    | some kind =>
      cases hch : envA.channel with
      | none => exact ⟨rfl, rfl, rfl⟩
      | some g =>
        by_cases hperm : kind = .AdminStar ∧ envA.perms = some false
        · simp [hperm, AddEffects.none]
        · simp [hperm, h1, h2, h3, AddEffects.none]
  have hrem : reaction_remove cfg st r envR = st := by
    unfold reaction_remove
    cases hv : is_valid_reaction cfg r with
    | none => rfl
    | some kind => simp [h4, h5]
  exact ⟨hadd.1, hadd.2.1, hadd.2.2, hrem⟩

/-- C5 witness: with every lock acquisition failing, an add and a remove
on the initial state change nothing and attempt no post. -/
theorem C5_witness :
    (reaction_add cfgEx HandlerState.initial userStarReaction
        (allLocksFailEnv 50 msgEx)).1 = HandlerState.initial ∧
      (reaction_add cfgEx HandlerState.initial userStarReaction
          (allLocksFailEnv 50 msgEx)).2.postAttempted = false ∧
      (reaction_add cfgEx HandlerState.initial userStarReaction
          (allLocksFailEnv 50 msgEx)).2.posted = false ∧
      reaction_remove cfgEx HandlerState.initial userStarReaction
        ⟨false, false⟩ = HandlerState.initial :=
  C5_locks_skip_guarded_sections cfgEx HandlerState.initial userStarReaction
    (allLocksFailEnv 50 msgEx) ⟨false, false⟩ rfl rfl rfl rfl rfl

/- ------------------------------------------------------------------ -/
/- Step lemmas for `reaction_add` in the fully-successful platform    -/
/- environment.                                                       -/
/- ------------------------------------------------------------------ -/

/-- A user-star add on an untracked, unposted message inserts a fresh
entry seeded at 0 — the creating reaction contributes no weight — and
has no external effects. -/
theorem add_fresh_user (cfg : HandlerConfig) (st : HandlerState) (r : Reaction)
    (g : Nat) (msg : Message) (p : Bool)
    (hv : is_valid_reaction cfg r = some .UserStar)
    (hun : lookupMsg st.watched_messages r.message_id = Option.none)
    (hns : r.message_id ∉ st.starred_message_ids) :
    reaction_add cfg st r (happyEnv g msg p) =
      ({ st with watched_messages :=
          insertMsg st.watched_messages r.message_id ⟨0, msg⟩ },
       AddEffects.none) := by
  unfold reaction_add
  simp [hv, happyEnv, hun, hns, WatchedMessage.new, lookupMsg_insertMsg,
    WatchedMessage.is_ready_for_pinning, AddEffects.none]

/-- A user-star add on a tracked single-entry store below the threshold
bumps the count by one and has no external effects. -/
theorem add_step_user_below (cfg : HandlerConfig) (r : Reaction)
    (g : Nat) (msg m' : Message) (p : Bool) (c : Nat) (hc : c + 1 < 10)
    (hv : is_valid_reaction cfg r = some .UserStar) :
    reaction_add cfg ⟨[(r.message_id, ⟨c, m'⟩)], []⟩ r (happyEnv g msg p) =
      (⟨[(r.message_id, ⟨c + 1, m'⟩)], []⟩, AddEffects.none) := by
  unfold reaction_add
  have hmod : (c + ReactionKind.power .UserStar) % USIZE = c + 1 := by
    simp only [ReactionKind.power, USIZE]
    omega
  simp [hv, happyEnv, lookupMsg, modifyMsg, WatchedMessage.on_star_added, hmod,
    WatchedMessage.is_ready_for_pinning, AddEffects.none, Nat.not_le.mpr hc,
    Nat.lt_of_succ_lt_succ]

/-- The user-star add that lifts the count from 9 to the threshold 10
promotes the message: the entry is removed and the identity marked
posted. -/
theorem add_step_user_promote (cfg : HandlerConfig) (r : Reaction)
    (g : Nat) (msg m' : Message) (hid : m'.id = r.message_id)
    (hv : is_valid_reaction cfg r = some .UserStar) :
    (reaction_add cfg ⟨[(r.message_id, ⟨9, m'⟩)], []⟩ r (happyEnv g msg true)).1 =
      ⟨[], [r.message_id]⟩ := by
  unfold reaction_add
  have hmod : (9 + ReactionKind.power .UserStar) % USIZE = 10 := by
    simp only [ReactionKind.power, USIZE]
  simp [hv, happyEnv, lookupMsg, modifyMsg, WatchedMessage.on_star_added, hmod,
    WatchedMessage.is_ready_for_pinning, removeMsg, hid]

/-- An admin-star add on the fresh initial state seeds the entry at 10;
with a failing starboard post the entry is retained and the failure is
reported into the originating channel. -/
theorem add_fresh_admin_postfail (cfg : HandlerConfig) (r : Reaction)
    (g : Nat) (msg : Message)
    (hv : is_valid_reaction cfg r = some .AdminStar) :
    reaction_add cfg HandlerState.initial r (happyEnv g msg false) =
      (⟨[(r.message_id, ⟨10, msg⟩)], []⟩,
       ⟨true, true, false, some r.channel_id⟩) := by
  unfold reaction_add
  simp [hv, happyEnv, HandlerState.initial, lookupMsg, insertMsg,
    WatchedMessage.new, WatchedMessage.is_ready_for_pinning, AddEffects.none]

/-- A second admin-star add on an admin-seeded entry adds the full
weight 10 again (still retained while the post keeps failing). -/
theorem add_step_admin_second (cfg : HandlerConfig) (r : Reaction)
    (g : Nat) (msg m' : Message)
    (hv : is_valid_reaction cfg r = some .AdminStar) :
    (reaction_add cfg ⟨[(r.message_id, ⟨10, m'⟩)], []⟩ r (happyEnv g msg false)).1 =
      ⟨[(r.message_id, ⟨20, m'⟩)], []⟩ := by
  unfold reaction_add
  have hmod : (10 + ReactionKind.power .AdminStar) % USIZE = 20 := by
    simp only [ReactionKind.power, USIZE]
  simp [hv, happyEnv, lookupMsg, modifyMsg, WatchedMessage.on_star_added, hmod,
    WatchedMessage.is_ready_for_pinning, AddEffects.none]

/-- A user-star add on a tracked entry at count `c ≥ 9` crosses the
threshold; when the post fails, the bumped entry stays in the store and
a plain-text report goes to the originating channel. -/
theorem add_existing_user_postfail (cfg : HandlerConfig) (st : HandlerState)
    (r : Reaction) (g : Nat) (msg m' : Message) (c : Nat)
    (hv : is_valid_reaction cfg r = some .UserStar)
    (hin : lookupMsg st.watched_messages r.message_id = some ⟨c, m'⟩)
    (hns : r.message_id ∉ st.starred_message_ids)
    (h9 : 9 ≤ c) (hlt : c + 1 < USIZE) :
    reaction_add cfg st r (happyEnv g msg false) =
      ({ st with
          watched_messages :=
            modifyMsg st.watched_messages r.message_id
              (fun wm => wm.on_star_added .UserStar) },
       ⟨false, true, false, some r.channel_id⟩) := by
  unfold reaction_add
  have hmod : (c + ReactionKind.power .UserStar) % USIZE = c + 1 := by
    simp only [ReactionKind.power, USIZE] at hlt ⊢
    omega
  have hready : (10:Nat) ≤ c + 1 := by omega
  simp [hv, happyEnv, hin, hns, lookupMsg_modifyMsg,
    WatchedMessage.on_star_added, hmod,
    WatchedMessage.is_ready_for_pinning, hready, AddEffects.none]

/-- A user-star add on a tracked entry at count `c ≥ 9` with a working
starboard results in a successful post. -/
theorem add_existing_user_postok_posted (cfg : HandlerConfig)
    (st : HandlerState) (r : Reaction) (g : Nat) (msg m' : Message) (c : Nat)
    (hv : is_valid_reaction cfg r = some .UserStar)
    (hin : lookupMsg st.watched_messages r.message_id = some ⟨c, m'⟩)
    (hns : r.message_id ∉ st.starred_message_ids)
    (h9 : 9 ≤ c) (hlt : c + 1 < USIZE) :
    (reaction_add cfg st r (happyEnv g msg true)).2.posted = true := by
  unfold reaction_add
  have hmod : (c + ReactionKind.power .UserStar) % USIZE = c + 1 := by
    simp only [ReactionKind.power, USIZE] at hlt ⊢
    omega
  have hready : (10:Nat) ≤ c + 1 := by omega
  simp [hv, happyEnv, hin, hns, lookupMsg_modifyMsg,
    WatchedMessage.on_star_added, hmod,
    WatchedMessage.is_ready_for_pinning, hready, AddEffects.none]

/-- An admin-star add on an untracked, unposted message leads to an
immediate (attempted and successful) starboard post. -/
theorem add_fresh_admin_posted (cfg : HandlerConfig) (st : HandlerState)
    (r : Reaction) (g : Nat) (msg : Message)
    (hv : is_valid_reaction cfg r = some .AdminStar)
    (hun : lookupMsg st.watched_messages r.message_id = Option.none)
    (hns : r.message_id ∉ st.starred_message_ids) :
    (reaction_add cfg st r (happyEnv g msg true)).2.postAttempted = true ∧
      (reaction_add cfg st r (happyEnv g msg true)).2.posted = true := by
  unfold reaction_add
  simp [hv, happyEnv, hun, hns, WatchedMessage.new, lookupMsg_insertMsg,
    WatchedMessage.is_ready_for_pinning, AddEffects.none]

/-- After `k + 1 ≤ 10` user-star adds on an unseen message the store
holds one entry with count `k`: the creating add seeds at 0, each later
add contributes 1. -/
theorem addN_user_count (cfg : HandlerConfig) (r : Reaction) (g : Nat)
    (msg : Message) (hv : is_valid_reaction cfg r = some .UserStar) :
    ∀ k, k + 1 ≤ 10 →
      addN cfg r (happyEnv g msg true) (k + 1) HandlerState.initial =
        ⟨[(r.message_id, ⟨k, msg⟩)], []⟩ := by
  intro k
  induction k with
  | zero =>
    intro _
    show (reaction_add cfg
        (addN cfg r (happyEnv g msg true) 0 HandlerState.initial) r
        (happyEnv g msg true)).1 = _
    rw [show addN cfg r (happyEnv g msg true) 0 HandlerState.initial =
      HandlerState.initial from rfl]
    rw [add_fresh_user cfg HandlerState.initial r g msg true hv rfl
      (by simp [HandlerState.initial])]
    rfl
  | succ m ih =>
    intro h
    show (reaction_add cfg
        (addN cfg r (happyEnv g msg true) (m + 1) HandlerState.initial) r
        (happyEnv g msg true)).1 = _
    rw [ih (by omega)]
    rw [add_step_user_below cfg r g msg msg true m (by omega) hv]

/-- C1 counterexample: ten user-star adds on the unseen message 100
leave `star_count` at 9, not 10, and the message is not yet eligible —
the creating reaction contributes no weight, so eligibility is first
reached at the eleventh add, not the tenth. -/
theorem C1_counterexample :
    lookupMsg (addN cfgEx userStarReaction (happyEnv 50 msgEx true) 10
        HandlerState.initial).watched_messages 100 = some ⟨9, msgEx⟩ ∧
      (addN cfgEx userStarReaction (happyEnv 50 msgEx true) 10
        HandlerState.initial).starred_message_ids = [] ∧
      (WatchedMessage.mk 9 msgEx).is_ready_for_pinning = false := by
  refine ⟨?_, ?_, ?_⟩
  · decide
  · decide
  · decide

/-- C1 (amended): for a previously-unseen, not-yet-promoted message,
after `n` user-star adds (`1 ≤ n ≤ 10`) the tracked `star_count` equals
`n - 1` — the creating add seeds the entry at 0 and adds no weight —
and the message is not yet eligible; eligibility (`star_count >= 10`)
is first reached when `n` reaches 11, at which point the message is
promoted: removed from the store and recorded as posted. -/
theorem C1_user_star_sequence (cfg : HandlerConfig) (r : Reaction) (g : Nat)
    (msg : Message) (hv : is_valid_reaction cfg r = some .UserStar)
    (hid : msg.id = r.message_id) :
    (∀ n, 1 ≤ n → n ≤ 10 →
      addN cfg r (happyEnv g msg true) n HandlerState.initial =
          ⟨[(r.message_id, ⟨n - 1, msg⟩)], []⟩ ∧
        (WatchedMessage.mk (n - 1) msg).is_ready_for_pinning = false) ∧
      addN cfg r (happyEnv g msg true) 11 HandlerState.initial =
        ⟨[], [r.message_id]⟩ := by
  constructor
  · intro n h1 h10
    obtain ⟨k, rfl⟩ : ∃ k, n = k + 1 := ⟨n - 1, by omega⟩
    refine ⟨addN_user_count cfg r g msg hv k (by omega), ?_⟩
    simp only [WatchedMessage.is_ready_for_pinning, decide_eq_false_iff_not]
    omega
  · show (reaction_add cfg
        (addN cfg r (happyEnv g msg true) 10 HandlerState.initial) r
        (happyEnv g msg true)).1 = _
    rw [show (10:Nat) = 9 + 1 from rfl, addN_user_count cfg r g msg hv 9
      (by omega)]
    exact add_step_user_promote cfg r g msg msg hid hv

/-- C1 witness: at the concrete configuration, after 5 adds the count is
4 and the message is not eligible; after 11 adds it is promoted. -/
theorem C1_witness :
    (addN cfgEx userStarReaction (happyEnv 50 msgEx true) 5
          HandlerState.initial =
        ⟨[(100, ⟨4, msgEx⟩)], []⟩ ∧
      (WatchedMessage.mk 4 msgEx).is_ready_for_pinning = false) ∧
      addN cfgEx userStarReaction (happyEnv 50 msgEx true) 11
        HandlerState.initial = ⟨[], [100]⟩ :=
  ⟨(C1_user_star_sequence cfgEx userStarReaction 50 msgEx rfl rfl).1 5
      (by omega) (by omega),
    (C1_user_star_sequence cfgEx userStarReaction 50 msgEx rfl rfl).2⟩

/-- C3: an admin-star add on a previously-unseen, not-yet-promoted
message creates the watched entry seeded at `star_count = 10`
(`WatchedMessage::new`), which immediately satisfies
`is_ready_for_pinning`, and the very same delivery attempts — and, with
a working starboard, completes — the promotion post. -/
theorem C3_admin_star_immediate (cfg : HandlerConfig) (st : HandlerState)
    (r : Reaction) (g : Nat) (msg : Message)
    (hv : is_valid_reaction cfg r = some .AdminStar)
    (hun : lookupMsg st.watched_messages r.message_id = Option.none)
    (hns : r.message_id ∉ st.starred_message_ids) :
    WatchedMessage.new .AdminStar (some msg) = some ⟨10, msg⟩ ∧
      (WatchedMessage.mk 10 msg).is_ready_for_pinning = true ∧
      (reaction_add cfg st r (happyEnv g msg true)).2.postAttempted = true ∧
      (reaction_add cfg st r (happyEnv g msg true)).2.posted = true := by
  refine ⟨rfl, rfl, ?_, ?_⟩
  · exact (add_fresh_admin_posted cfg st r g msg hv hun hns).1
  · exact (add_fresh_admin_posted cfg st r g msg hv hun hns).2

/-- C3 witness: a single admin star on message 100 in the initial state
seeds at 10 and is posted at once. -/
theorem C3_witness :
    WatchedMessage.new .AdminStar (some msgEx) = some ⟨10, msgEx⟩ ∧
      (WatchedMessage.mk 10 msgEx).is_ready_for_pinning = true ∧
      (reaction_add cfgEx HandlerState.initial adminStarReaction
          (happyEnv 50 msgEx true)).2.postAttempted = true ∧
      (reaction_add cfgEx HandlerState.initial adminStarReaction
          (happyEnv 50 msgEx true)).2.posted = true :=
  C3_admin_star_immediate cfgEx HandlerState.initial adminStarReaction 50
    msgEx rfl rfl (by simp [HandlerState.initial])

/-- C6 counterexample: delivering the same user-star `ReactionAdded`
twice against a fresh store leaves `star_count` at 1, not 2 — the first
delivery only creates the entry (seed 0) and does not add the kind's
weight. -/
theorem C6_counterexample :
    lookupMsg (addN cfgEx userStarReaction (happyEnv 50 msgEx true) 2
        HandlerState.initial).watched_messages 100 = some ⟨1, msgEx⟩ ∧
      lookupMsg (addN cfgEx userStarReaction (happyEnv 50 msgEx true) 2
          HandlerState.initial).watched_messages 100 ≠ some ⟨2, msgEx⟩ := by
  constructor
  · decide
  · decide

/-- C6 (amended): adds are never deduplicated by event identity — each
replayed delivery of the same `ReactionAdded` is processed again — but
the first delivery creates the entry at the kind's creation seed (0 for
`UserStar`, 10 for `AdminStar`) without adding the weight, and only the
second delivery increases `star_count` by the kind's weight. -/
theorem C6_replay_processed_twice (cfg : HandlerConfig) (r : Reaction)
    (g : Nat) (msg : Message) (kind : ReactionKind)
    (hv : is_valid_reaction cfg r = some kind) (wm0 : WatchedMessage)
    (hw : WatchedMessage.new kind (some msg) = some wm0) :
    lookupMsg (addN cfg r (happyEnv g msg false) 1
        HandlerState.initial).watched_messages r.message_id = some wm0 ∧
      lookupMsg (addN cfg r (happyEnv g msg false) 2
          HandlerState.initial).watched_messages r.message_id =
        some (wm0.on_star_added kind) ∧
      (wm0.on_star_added kind).star_count = wm0.star_count + kind.power := by
  have h1 : addN cfg r (happyEnv g msg false) 1 HandlerState.initial =
      (reaction_add cfg HandlerState.initial r (happyEnv g msg false)).1 := rfl
  have h2 : addN cfg r (happyEnv g msg false) 2 HandlerState.initial =
      (reaction_add cfg (addN cfg r (happyEnv g msg false) 1
        HandlerState.initial) r (happyEnv g msg false)).1 := rfl
  cases kind with
  | UserStar =>
    have hwm : wm0 = ⟨0, msg⟩ := by
      have := hw
      simp [WatchedMessage.new] at this
      exact this.symm
    subst hwm
    have hb := add_fresh_user cfg HandlerState.initial r g msg false hv rfl
      (by simp [HandlerState.initial])
    have hb1 : addN cfg r (happyEnv g msg false) 1 HandlerState.initial =
        ⟨[(r.message_id, ⟨0, msg⟩)], []⟩ := by
      rw [h1, hb]
      simp [HandlerState.initial, insertMsg]
    refine ⟨?_, ?_, ?_⟩
    · rw [hb1]
      simp [lookupMsg]
    · rw [h2, hb1, add_step_user_below cfg r g msg msg false 0 (by omega) hv]
      simp [lookupMsg, WatchedMessage.on_star_added, ReactionKind.power, USIZE]
    · simp [WatchedMessage.on_star_added, ReactionKind.power, USIZE]
  | AdminStar =>
    have hwm : wm0 = ⟨10, msg⟩ := by
      have := hw
      simp [WatchedMessage.new] at this
      exact this.symm
    subst hwm
    have hb1 : addN cfg r (happyEnv g msg false) 1 HandlerState.initial =
        ⟨[(r.message_id, ⟨10, msg⟩)], []⟩ := by
      rw [h1, add_fresh_admin_postfail cfg r g msg hv]
    refine ⟨?_, ?_, ?_⟩
    · rw [hb1]
      simp [lookupMsg]
    · rw [h2, hb1, add_step_admin_second cfg r g msg msg hv]
      simp [lookupMsg, WatchedMessage.on_star_added, ReactionKind.power, USIZE]
    · simp [WatchedMessage.on_star_added, ReactionKind.power, USIZE]

/-- C6 witness: two admin-star deliveries on a fresh store: the first
seeds at 10, the second adds the weight 10 on top. -/
theorem C6_witness :
    lookupMsg (addN cfgEx adminStarReaction (happyEnv 50 msgEx false) 1
        HandlerState.initial).watched_messages 100 =
        some (⟨10, msgEx⟩ : WatchedMessage) ∧
      lookupMsg (addN cfgEx adminStarReaction (happyEnv 50 msgEx false) 2
          HandlerState.initial).watched_messages 100 =
        some ((⟨10, msgEx⟩ : WatchedMessage).on_star_added .AdminStar) ∧
      ((⟨10, msgEx⟩ : WatchedMessage).on_star_added .AdminStar).star_count =
        (⟨10, msgEx⟩ : WatchedMessage).star_count +
          ReactionKind.power .AdminStar :=
  C6_replay_processed_twice cfgEx adminStarReaction 50 msgEx .AdminStar rfl
    ⟨10, msgEx⟩ rfl

/-- C8: when a watched message is eligible and the starboard post fails,
the failure is reported as a plain-text message into the originating
channel, the entry stays in the store (with its bumped count) and the
identity is not added to the posted set — so a later qualifying reaction
re-attempts the promotion, which then succeeds once posting works. -/
theorem C8_post_failure_reported_and_retried (cfg : HandlerConfig)
    (st : HandlerState) (r : Reaction) (g : Nat) (msg m' : Message) (c : Nat)
    (hv : is_valid_reaction cfg r = some .UserStar)
    (hin : lookupMsg st.watched_messages r.message_id = some ⟨c, m'⟩)
    (hns : r.message_id ∉ st.starred_message_ids)
    (h9 : 9 ≤ c) (hlt : c + 2 < USIZE) :
    (reaction_add cfg st r (happyEnv g msg false)).2.postAttempted = true ∧
      (reaction_add cfg st r (happyEnv g msg false)).2.posted = false ∧
      (reaction_add cfg st r (happyEnv g msg false)).2.errorReportedTo =
        some r.channel_id ∧
      lookupMsg (reaction_add cfg st r
          (happyEnv g msg false)).1.watched_messages r.message_id =
        some ⟨c + 1, m'⟩ ∧
      (reaction_add cfg st r (happyEnv g msg false)).1.starred_message_ids =
        st.starred_message_ids ∧
      (reaction_add cfg (reaction_add cfg st r (happyEnv g msg false)).1 r
          (happyEnv g msg true)).2.posted = true := by
  have h1 := add_existing_user_postfail cfg st r g msg m' c hv hin hns h9
    (by omega)
  have hmod : (c + ReactionKind.power .UserStar) % USIZE = c + 1 := by
    simp only [ReactionKind.power, USIZE] at hlt ⊢
    omega
  have hlook : lookupMsg (reaction_add cfg st r
      (happyEnv g msg false)).1.watched_messages r.message_id =
      some ⟨c + 1, m'⟩ := by
    rw [h1]
    simp [lookupMsg_modifyMsg, hin, WatchedMessage.on_star_added, hmod]
  have hstar : (reaction_add cfg st r
      (happyEnv g msg false)).1.starred_message_ids =
      st.starred_message_ids := by
    rw [h1]
  refine ⟨by rw [h1], by rw [h1], by rw [h1], hlook, hstar, ?_⟩
  exact add_existing_user_postok_posted cfg
    (reaction_add cfg st r (happyEnv g msg false)).1 r g msg m' (c + 1) hv
    hlook (by rw [hstar]; exact hns) (by omega) (by omega)

/-- C8 witness: entry at count 9, post fails: error reported to channel
7, entry kept at count 10, nothing marked posted; the next add posts. -/
theorem C8_witness :
    (reaction_add cfgEx ⟨[(100, ⟨9, msgEx⟩)], []⟩ userStarReaction
        (happyEnv 50 msgEx false)).2.postAttempted = true ∧
      (reaction_add cfgEx ⟨[(100, ⟨9, msgEx⟩)], []⟩ userStarReaction
          (happyEnv 50 msgEx false)).2.posted = false ∧
      (reaction_add cfgEx ⟨[(100, ⟨9, msgEx⟩)], []⟩ userStarReaction
          (happyEnv 50 msgEx false)).2.errorReportedTo = some 7 ∧
      lookupMsg (reaction_add cfgEx ⟨[(100, ⟨9, msgEx⟩)], []⟩
          userStarReaction
          (happyEnv 50 msgEx false)).1.watched_messages 100 =
        some ⟨10, msgEx⟩ ∧
      (reaction_add cfgEx ⟨[(100, ⟨9, msgEx⟩)], []⟩ userStarReaction
          (happyEnv 50 msgEx false)).1.starred_message_ids = [] ∧
      (reaction_add cfgEx (reaction_add cfgEx ⟨[(100, ⟨9, msgEx⟩)], []⟩
            userStarReaction (happyEnv 50 msgEx false)).1 userStarReaction
          (happyEnv 50 msgEx true)).2.posted = true :=
  C8_post_failure_reported_and_retried cfgEx ⟨[(100, ⟨9, msgEx⟩)], []⟩
    userStarReaction 50 msgEx msgEx 9 rfl (by decide) (by decide) (by decide)
    (by decide)

end Stars
